import Mathlib

/-!
Shallow embedding of the alpha-security-server Node.js backend.

The SQLite store (database.js, shipped in `deploy.ps1` after the separator) is
modelled as an in-memory list of rows per table; timestamps are integers
(milliseconds), JavaScript numbers are rationals.  The JSON encoding of command
payloads is abstracted as an opaque string (the claims never inspect payload
contents).  The repository never issues `PRAGMA foreign_keys = ON`, and SQLite
leaves foreign-key enforcement off by default, so the `ON DELETE CASCADE`
clauses in the schema are inert at runtime: deleting a device row removes only
that row.  The embedding reflects that runtime behaviour.
-/

namespace AlphaSec

/-- A JavaScript numeric-or-absent request-body field.  The embedding models
numeric payload fields (latitude, longitude, accuracy, ...) as either absent
(`undef`) or a number; the JavaScript truthiness test `!x` is false for a
present non-zero number and true for an absent field or the number 0. -/
inductive JSNum where
  | undef
  | num (q : Rat)
deriving DecidableEq

/-- JavaScript truthiness of a numeric field: 0 and undefined are falsy. -/
def JSNum.truthy : JSNum → Bool
  | .undef => false
  | .num q => q != 0

/-- parseFloat applied to a numeric field that is known to be present. -/
def JSNum.toRat : JSNum → Rat
  | .undef => 0
  | .num q => q

/-- The JavaScript pattern `x ? parseFloat(x) : null` used for optional
numeric columns. -/
def jsOptNum (v : JSNum) : Option Rat :=
  if v.truthy then some v.toRat else none

/-- JavaScript truthiness of a string-valued body field: absent and the empty
string are falsy. -/
def strTruthy : Option String → Bool
  | none => false
  | some s => s != ""

/-- JavaScript truthiness of the numeric commandId body field: absent and 0
are falsy. -/
def natTruthy : Option Nat → Bool
  | none => false
  | some n => n != 0

/-- A row of the `devices` table (schema in database.js `createTables`).
`is_locked` and `alarm_active` are the INTEGER 0/1 columns. -/
structure DeviceRow where
  user_id : Nat
  device_id : String
  device_name : String
  device_model : String
  android_version : String
  last_seen : Int
  status : String
  is_locked : Nat
  alarm_active : Nat
  battery_level : Option Rat
deriving DecidableEq

/-- A row of the `commands` table. -/
structure CommandRow where
  id : Nat
  device_id : String
  user_id : Nat
  command_type : String
  command_data : Option String
  status : String
  sent_at : Int
  executed_at : Option Int
  response : Option String
deriving DecidableEq

/-- A row of the `locations` table. -/
structure LocationRow where
  id : Nat
  device_id : String
  latitude : Rat
  longitude : Rat
  accuracy : Option Rat
  altitude : Option Rat
  speed : Option Rat
  bearing : Option Rat
  address : Option String
  source : String
  battery_level : Option Rat
  network_type : Option String
  timestamp : Int
deriving DecidableEq

/-- A row of the `device_logs` table. -/
structure LogRow where
  id : Nat
  device_id : String
  log_type : String
  message : String
  timestamp : Int
deriving DecidableEq

/-- The store: the tables the claims touch, plus the AUTOINCREMENT counters. -/
structure DB where
  devices : List DeviceRow
  commands : List CommandRow
  locations : List LocationRow
  logs : List LogRow
  nextCommandId : Nat
  nextLocationId : Nat
  nextLogId : Nat
deriving DecidableEq

/-- Database.getDeviceById: SELECT * FROM devices WHERE device_id = ?
(`device_id` is UNIQUE, so the first match is the row). -/
def getDeviceById (db : DB) (deviceId : String) : Option DeviceRow :=
  db.devices.find? (fun d => d.device_id == deviceId)

/-- Database.registerDevice: INSERT OR REPLACE INTO devices ... — the
conflicting row (same UNIQUE device_id) is deleted and a fresh row is
inserted with the given fields, last_seen = CURRENT_TIMESTAMP and the
schema defaults for the remaining columns. -/
def registerDevice (db : DB) (userId : Nat)
    (deviceId deviceName deviceModel androidVersion : String) (now : Int) : DB :=
  { db with devices := db.devices.filter (fun d => d.device_id != deviceId) ++
      [{ user_id := userId, device_id := deviceId, device_name := deviceName,
         device_model := deviceModel, android_version := androidVersion,
         last_seen := now, status := "active", is_locked := 0,
         alarm_active := 0, battery_level := none }] }

/-- Database.updateDeviceStatus: UPDATE devices SET status = ?,
last_seen = CURRENT_TIMESTAMP WHERE device_id = ?. -/
def updateDeviceStatus (db : DB) (deviceId : String) (status : String) (now : Int) : DB :=
  { db with devices := db.devices.map (fun d =>
      if d.device_id == deviceId then { d with status := status, last_seen := now } else d) }

/-- Database.updateDeviceLockStatus: UPDATE devices SET is_locked = ?,
last_seen = CURRENT_TIMESTAMP WHERE device_id = ?. -/
def updateDeviceLockStatus (db : DB) (deviceId : String) (isLocked : Bool) (now : Int) : DB :=
  { db with devices := db.devices.map (fun d =>
      if d.device_id == deviceId then
        { d with is_locked := if isLocked then 1 else 0, last_seen := now } else d) }

/-- Database.updateDeviceAlarmStatus: UPDATE devices SET alarm_active = ?,
last_seen = CURRENT_TIMESTAMP WHERE device_id = ?. -/
def updateDeviceAlarmStatus (db : DB) (deviceId : String) (alarmActive : Bool) (now : Int) : DB :=
  { db with devices := db.devices.map (fun d =>
      if d.device_id == deviceId then
        { d with alarm_active := if alarmActive then 1 else 0, last_seen := now } else d) }

/-- Database.updateDeviceLastSeen: UPDATE devices SET
last_seen = CURRENT_TIMESTAMP WHERE device_id = ?. -/
def updateDeviceLastSeen (db : DB) (deviceId : String) (now : Int) : DB :=
  { db with devices := db.devices.map (fun d =>
      if d.device_id == deviceId then { d with last_seen := now } else d) }

/-- Database.updateDeviceBatteryLevel: UPDATE devices SET battery_level = ?,
last_seen = CURRENT_TIMESTAMP WHERE device_id = ?. -/
def updateDeviceBatteryLevel (db : DB) (deviceId : String) (lvl : Rat) (now : Int) : DB :=
  { db with devices := db.devices.map (fun d =>
      if d.device_id == deviceId then { d with battery_level := some lvl, last_seen := now } else d) }

/-- Database.createCommand: INSERT INTO commands (device_id, user_id,
command_type, command_data) — status defaults to pending, sent_at to
CURRENT_TIMESTAMP; returns the AUTOINCREMENT id of the new row. -/
def createCommand (db : DB) (deviceId : String) (userId : Nat)
    (commandType : String) (commandData : Option String) (now : Int) : Nat × DB :=
  (db.nextCommandId,
   { db with
       commands := db.commands ++
         [{ id := db.nextCommandId, device_id := deviceId, user_id := userId,
            command_type := commandType, command_data := commandData,
            status := "pending", sent_at := now, executed_at := none,
            response := none }],
       nextCommandId := db.nextCommandId + 1 })

/-- Database.getPendingCommands: SELECT * FROM commands WHERE device_id = ?
AND status = pending ORDER BY sent_at ASC.  The ORDER BY over the
rowid-ordered table is modelled as a stable sort on sent_at. -/
def getPendingCommands (db : DB) (deviceId : String) : List CommandRow :=
  (db.commands.filter (fun c => c.device_id == deviceId && c.status == "pending")).mergeSort
    (fun a b => decide (a.sent_at ≤ b.sent_at))

/-- Database.updateCommandStatus: UPDATE commands SET status = ?,
response = ?, executed_at = CURRENT_TIMESTAMP WHERE id = ?.  The new status
is stored unconditionally, whatever the previous status was. -/
def updateCommandStatus (db : DB) (commandId : Nat) (status : String)
    (response : Option String) (now : Int) : DB :=
  { db with commands := db.commands.map (fun c =>
      if c.id == commandId then
        { c with status := status, response := response, executed_at := some now } else c) }

/-- Database.logDeviceActivity: INSERT INTO device_logs (device_id, log_type,
message). -/
def logDeviceActivity (db : DB) (deviceId logType message : String) (now : Int) : DB :=
  { db with
      logs := db.logs ++
        [{ id := db.nextLogId, device_id := deviceId, log_type := logType,
           message := message, timestamp := now }],
      nextLogId := db.nextLogId + 1 }

/-- Database.saveLocation: INSERT INTO locations ...; returns the new row id. -/
def saveLocation (db : DB) (row : Nat → LocationRow) : Nat × DB :=
  (db.nextLocationId,
   { db with locations := db.locations ++ [row db.nextLocationId],
             nextLocationId := db.nextLocationId + 1 })

/-- The JavaScript idiom `x || dflt` on a string field: the default applies
when the field is absent or the empty string. -/
def strOr (v : Option String) (dflt : String) : String :=
  if strTruthy v then v.getD dflt else dflt

/-- Per-device entry of the batch-command result list. -/
structure BatchResult where
  deviceId : String
  success : Bool
  commandId : Option Nat
  error : Option String
deriving DecidableEq

/-- Per-sample entry of the batch-location result list. -/
structure LocResult where
  success : Bool
  locationId : Option Nat
  error : Option String
deriving DecidableEq

/-- The observable HTTP response of a handler: error responses carry the
status code and the error message of the JSON body; success responses carry
the fields of the JSON body that the claims compare. -/
inductive Resp where
  | e (code : Nat) (msg : String)
  | ok (code : Nat)
  | okCommandId (code : Nat) (commandId : Nat)
  | okPending (cmds : List CommandRow)
  | okBatch (results : List BatchResult)
  | okLocation (locationId : Nat)
  | okLocBatch (results : List LocResult)
deriving DecidableEq

/-- devices.js isDeviceOnline: diffMinutes = (now - lastSeenTime) / (1000 * 60),
online iff diffMinutes <= 5 (inclusive bound, exact real division). -/
def isDeviceOnline (lastSeen now : Int) : Bool :=
  decide ((((now - lastSeen : Int)) : Rat) / (1000 * 60) ≤ 5)

/-- The dashboard routes compute presence inline as
Date.now() - lastSeenTime.getTime() < 5 * 60 * 1000 (strict bound). -/
def dashboardIsOnline (lastSeen now : Int) : Bool :=
  decide (now - lastSeen < 5 * 60 * 1000)

/-- POST /api/devices/register (devices.js): requires truthy deviceId and
deviceName, then upserts the device and logs the registration. -/
def registerHandler (now : Int) (userId : Nat)
    (deviceId deviceName deviceModel androidVersion : Option String) (db : DB) : Resp × DB :=
  if !(strTruthy deviceId) || !(strTruthy deviceName) then
    (.e 400 "Device ID and name are required", db)
  else
    let did := deviceId.getD ""
    let db1 := registerDevice db userId did (deviceName.getD "")
      (strOr deviceModel "Unknown") (strOr androidVersion "Unknown") now
    let db2 := logDeviceActivity db1 did "registration" "Device registered" now
    (.ok 201, db2)

/-- GET /api/devices/:deviceId (devices.js): 404 when the device does not
exist, 403 Access denied when it exists but belongs to another user. -/
def getDeviceHandler (userId : Nat) (deviceId : String) (db : DB) : Resp :=
  match getDeviceById db deviceId with
  | none => .e 404 "Device not found"
  | some device =>
    if device.user_id != userId then .e 403 "Access denied" else .ok 200

/-- POST /api/devices/:deviceId/heartbeat (devices.js): missing device and
ownership mismatch both give 404; otherwise updates the device status,
logs, and returns the pending commands. -/
def heartbeatHandler (now : Int) (userId : Nat) (deviceId : String)
    (status : Option String) (db : DB) : Resp × DB :=
  match getDeviceById db deviceId with
  | none => (.e 404 "Device not found", db)
  | some device =>
    if device.user_id != userId then (.e 404 "Device not found", db)
    else
      let db1 := updateDeviceStatus db deviceId (status.getD "active") now
      let db2 := logDeviceActivity db1 deviceId "heartbeat" "Heartbeat" now
      (.okPending (getPendingCommands db2 deviceId), db2)

/-- POST /api/devices/:deviceId/command-response (devices.js): validates only
that commandId and status are truthy; performs NO ownership check on the
device or the command, then overwrites the command status unconditionally.
The web-socket emit is stateless and omitted. -/
def commandResponseHandler (now : Int) (userId : Nat) (deviceId : String)
    (commandId : Option Nat) (status response errMsg : Option String) (db : DB) : Resp × DB :=
  if !(natTruthy commandId) || !(strTruthy status) then
    (.e 400 "Command ID and status are required", db)
  else
    let respVal := if strTruthy response then response
      else if strTruthy errMsg then errMsg else none
    let db1 := updateCommandStatus db (commandId.getD 0) (status.getD "") respVal now
    let db2 := logDeviceActivity db1 deviceId "command_response" "Command response" now
    (.ok 200, db2)

/-- GET /api/devices/:deviceId/logs (devices.js): missing device and
ownership mismatch both give 404. -/
def logsHandler (userId : Nat) (deviceId : String) (db : DB) : Resp :=
  match getDeviceById db deviceId with
  | none => .e 404 "Device not found"
  | some device =>
    if device.user_id != userId then .e 404 "Device not found" else .ok 200

/-- DELETE /api/devices/:deviceId (devices.js): after the ownership check the
route runs the raw SQL DELETE FROM devices WHERE device_id = ?.  Foreign-key
enforcement is never enabled on the connection, so only the devices rows are
removed; commands, locations and device_logs rows are untouched. -/
def deleteDeviceHandler (userId : Nat) (deviceId : String) (db : DB) : Resp × DB :=
  match getDeviceById db deviceId with
  | none => (.e 404 "Device not found", db)
  | some device =>
    if device.user_id != userId then (.e 404 "Device not found", db)
    else
      (.ok 200, { db with devices := db.devices.filter (fun d => d.device_id != deviceId) })

/-- POST /api/commands/:deviceId/lock (command routes): ownership check, then
creates a pending LOCK_DEVICE command, optimistically sets is_locked = 1
(which also refreshes last_seen), and logs. -/
def lockHandler (now : Int) (userId : Nat) (deviceId : String)
    (message : Option String) (db : DB) : Resp × DB :=
  match getDeviceById db deviceId with
  | none => (.e 404 "Device not found", db)
  | some device =>
    if device.user_id != userId then (.e 404 "Device not found", db)
    else
      let msg := message.getD "Device locked remotely for security"
      let (cid, db1) := createCommand db deviceId userId "LOCK_DEVICE" (some msg) now
      let db2 := updateDeviceLockStatus db1 deviceId true now
      let db3 := logDeviceActivity db2 deviceId "command_sent" "Lock command sent" now
      (.okCommandId 201 cid, db3)

/-- POST /api/commands/:deviceId/alarm/start (command routes): ownership
check, then creates a pending START_ALARM command and sets alarm_active = 1
(which also refreshes last_seen). -/
def alarmStartHandler (now : Int) (userId : Nat) (deviceId : String) (db : DB) : Resp × DB :=
  match getDeviceById db deviceId with
  | none => (.e 404 "Device not found", db)
  | some device =>
    if device.user_id != userId then (.e 404 "Device not found", db)
    else
      let (cid, db1) := createCommand db deviceId userId "START_ALARM" (some "alarm") now
      let db2 := updateDeviceAlarmStatus db1 deviceId true now
      let db3 := logDeviceActivity db2 deviceId "command_sent" "Start alarm command sent" now
      (.okCommandId 201 cid, db3)

/-- POST /api/commands/:deviceId/wipe (command routes): rejects with 400
before any other work unless confirmWipe is exactly the sentinel string;
then ownership check, then creates a pending FACTORY_RESET command. -/
def wipeHandler (now : Int) (userId : Nat) (deviceId : String)
    (confirmWipe : Option String) (db : DB) : Resp × DB :=
  if confirmWipe != some "CONFIRM_FACTORY_RESET" then
    (.e 400 "Wipe confirmation required. Set confirmWipe to CONFIRM_FACTORY_RESET", db)
  else
    match getDeviceById db deviceId with
    | none => (.e 404 "Device not found", db)
    | some device =>
      if device.user_id != userId then (.e 404 "Device not found", db)
      else
        let (cid, db1) := createCommand db deviceId userId "FACTORY_RESET" (some "confirmed") now
        let db2 := logDeviceActivity db1 deviceId "critical_command" "FACTORY RESET command sent" now
        (.okCommandId 201 cid, db2)

/-- GET /api/commands/:deviceId/pending (command routes): returns the pending
commands of the device with NO ownership check (the route comment says the
device itself may call it), and performs no write. -/
def pendingHandler (userId : Nat) (deviceId : String) (db : DB) : Resp × DB :=
  (.okPending (getPendingCommands db deviceId), db)

/-- One iteration of the POST /api/commands/batch loop: a missing or
non-owned device is recorded as a failure entry without aborting the rest;
an owned device gets a command row and a log row. -/
def batchStep (now : Int) (userId : Nat) (commandType : String) (commandData : Option String)
    (acc : List BatchResult × DB) (deviceId : String) : List BatchResult × DB :=
  let results := acc.1
  let db := acc.2
  match getDeviceById db deviceId with
  | none =>
    (results ++ [{ deviceId := deviceId, success := false, commandId := none,
                   error := some "Device not found or access denied" }], db)
  | some device =>
    if device.user_id != userId then
      (results ++ [{ deviceId := deviceId, success := false, commandId := none,
                     error := some "Device not found or access denied" }], db)
    else
      let (cid, db1) := createCommand db deviceId userId commandType commandData now
      let db2 := logDeviceActivity db1 deviceId "batch_command" "Batch command sent" now
      (results ++ [{ deviceId := deviceId, success := true, commandId := some cid,
                     error := none }], db2)

/-- POST /api/commands/batch (command routes): requires a non-empty devices
array and a truthy commandType, then iterates the devices independently.
No confirmation token is required for any commandType, including
FACTORY_RESET. -/
def batchHandler (now : Int) (userId : Nat) (devices : Option (List String))
    (commandType : Option String) (commandData : Option String) (db : DB) : Resp × DB :=
  match devices with
  | none => (.e 400 "Devices array is required", db)
  | some ds =>
    if ds.isEmpty then (.e 400 "Devices array is required", db)
    else if !(strTruthy commandType) then (.e 400 "Command type is required", db)
    else
      let out := ds.foldl (batchStep now userId (commandType.getD "") commandData) ([], db)
      (.okBatch out.1, out.2)

/-- POST /api/location/:deviceId/update (location routes): the only
coordinate validation is the JavaScript truthiness test
`if (!latitude || !longitude)`; after the ownership check the parsed
coordinates are persisted with no numeric-range check.  battery_level goes
through parseInt in the source; the truncation is irrelevant to the claims
and is not modelled. -/
def locationUpdateHandler (now : Int) (userId : Nat) (deviceId : String)
    (latitude longitude accuracy altitude bearing speed battery_level : JSNum)
    (address source network_type : Option String) (db : DB) : Resp × DB :=
  if !latitude.truthy || !longitude.truthy then
    (.e 400 "Latitude and longitude are required", db)
  else
    match getDeviceById db deviceId with
    | none => (.e 404 "Device not found", db)
    | some device =>
      if device.user_id != userId then (.e 404 "Device not found", db)
      else
        let row := fun (lid : Nat) =>
          ({ id := lid, device_id := deviceId, latitude := latitude.toRat,
             longitude := longitude.toRat, accuracy := jsOptNum accuracy,
             altitude := jsOptNum altitude, bearing := jsOptNum bearing,
             speed := jsOptNum speed,
             address := if strTruthy address then address else none,
             source := source.getD "gps",
             battery_level := jsOptNum battery_level,
             network_type := if strTruthy network_type then network_type else none,
             timestamp := now } : LocationRow)
        let out := saveLocation db row
        let db2 := updateDeviceLastSeen out.2 deviceId now
        let db3 := if battery_level.truthy then
            updateDeviceBatteryLevel db2 deviceId battery_level.toRat now else db2
        let db4 := logDeviceActivity db3 deviceId "location_update" "Location updated" now
        (.okLocation out.1, db4)

/-- One sample of the POST /api/location/batch-update request body. -/
structure LocBody where
  latitude : JSNum
  longitude : JSNum
  accuracy : JSNum
  altitude : JSNum
  bearing : JSNum
  speed : JSNum
  battery_level : JSNum
  address : Option String
  source : Option String
  network_type : Option String
  timestamp : Option Int
deriving DecidableEq

/-- One iteration of the batch-update loop: a sample with falsy coordinates
gets a per-sample failure entry (not an HTTP 400); any other sample is
persisted with no range check. -/
def batchLocStep (now : Int) (deviceId : String)
    (acc : List LocResult × DB) (l : LocBody) : List LocResult × DB :=
  let results := acc.1
  let db := acc.2
  if !l.latitude.truthy || !l.longitude.truthy then
    (results ++ [{ success := false, locationId := none,
                   error := some "Missing coordinates" }], db)
  else
    let row := fun (lid : Nat) =>
      ({ id := lid, device_id := deviceId, latitude := l.latitude.toRat,
         longitude := l.longitude.toRat, accuracy := jsOptNum l.accuracy,
         altitude := jsOptNum l.altitude, bearing := jsOptNum l.bearing,
         speed := jsOptNum l.speed,
         address := if strTruthy l.address then l.address else none,
         source := strOr l.source "gps",
         battery_level := jsOptNum l.battery_level,
         network_type := if strTruthy l.network_type then l.network_type else none,
         timestamp := l.timestamp.getD now } : LocationRow)
    let out := saveLocation db row
    (results ++ [{ success := true, locationId := some out.1, error := none }], out.2)

/-- POST /api/location/batch-update (location routes): requires a truthy
deviceId and a locations array, checks ownership once, then processes the
samples independently and finally refreshes last_seen and logs. -/
def batchLocationUpdateHandler (now : Int) (userId : Nat)
    (deviceId : Option String) (locations : Option (List LocBody)) (db : DB) : Resp × DB :=
  if !(strTruthy deviceId) then
    (.e 400 "Device ID and locations array are required", db)
  else
    match locations with
    | none => (.e 400 "Device ID and locations array are required", db)
    | some locs =>
      let did := deviceId.getD ""
      match getDeviceById db did with
      | none => (.e 404 "Device not found", db)
      | some device =>
        if device.user_id != userId then (.e 404 "Device not found", db)
        else
          let out := locs.foldl (batchLocStep now did) ([], db)
          let db2 := updateDeviceLastSeen out.2 did now
          let db3 := logDeviceActivity db2 did "batch_location_update" "Batch location update" now
          (.okLocBatch out.1, db3)

/-! Concrete fixtures used by the counterexamples and witnesses: user 1 owns
device d1; user 2 is another authenticated user. -/

/-- A device owned by user 1. -/
def dev1 : DeviceRow :=
  { user_id := 1, device_id := "d1", device_name := "Pixel",
    device_model := "Pixel 7", android_version := "14", last_seen := 0,
    status := "active", is_locked := 0, alarm_active := 0, battery_level := none }

/-- A store holding only dev1. -/
def db0 : DB :=
  { devices := [dev1], commands := [], locations := [], logs := [],
    nextCommandId := 1, nextLocationId := 1, nextLogId := 1 }

/-- A pending LOCK_DEVICE command issued by user 1 against d1. -/
def cmd1 : CommandRow :=
  { id := 1, device_id := "d1", user_id := 1, command_type := "LOCK_DEVICE",
    command_data := none, status := "pending", sent_at := 10,
    executed_at := none, response := none }

/-- db0 plus the pending command cmd1. -/
def db1 : DB := { db0 with commands := [cmd1], nextCommandId := 2 }

/-- A stored location sample for d1. -/
def loc1 : LocationRow :=
  { id := 1, device_id := "d1", latitude := 1, longitude := 2, accuracy := none,
    altitude := none, speed := none, bearing := none, address := none,
    source := "gps", battery_level := none, network_type := none, timestamp := 5 }

/-- A device-log row for d1. -/
def log1 : LogRow :=
  { id := 1, device_id := "d1", log_type := "registration", message := "m",
    timestamp := 1 }

/-- A store holding dev1 together with one dependent row in each of the
commands, locations and device_logs tables. -/
def dbFull : DB :=
  { devices := [dev1], commands := [cmd1], locations := [loc1], logs := [log1],
    nextCommandId := 2, nextLocationId := 2, nextLogId := 2 }

/-- The devices-route presence test in integer milliseconds: the rational
division by 60000 compared with 5 is an inclusive 300000 ms bound. -/
theorem isDeviceOnline_iff (lastSeen now : Int) :
    isDeviceOnline lastSeen now = true ↔ now - lastSeen ≤ 300000 := by
  unfold isDeviceOnline
  rw [decide_eq_true_eq, div_le_iff₀ (by norm_num : (0 : Rat) < 1000 * 60)]
  rw [show (5 : Rat) * (1000 * 60) = ((300000 : Int) : Rat) by norm_num]
  exact Int.cast_le

/-- The dashboard presence test is a strict 300000 ms bound. -/
theorem dashboardIsOnline_iff (lastSeen now : Int) :
    dashboardIsOnline lastSeen now = true ↔ now - lastSeen < 300000 := by
  unfold dashboardIsOnline
  rw [decide_eq_true_eq]
  omega

/-- C6 counterexample: at a gap of exactly five minutes the devices-route
helper isDeviceOnline reports online (inclusive bound) while the dashboard
routes report offline (strict bound), so the boundary case is not computed
identically on every code path. -/
theorem presence_boundary_cex :
    isDeviceOnline 0 300000 = true ∧ dashboardIsOnline 0 300000 = false := by
  constructor
  · rw [isDeviceOnline_iff]; omega
  · decide

/-- C4 code-bug evaluation: user 1 deletes its own device d1 from a store
holding one command, one location and one log row for d1; the delete succeeds
and removes the device row, but all three dependent rows remain (the
foreign-key pragma is never enabled, so ON DELETE CASCADE is inert). -/
theorem delete_device_leaves_orphans :
    (deleteDeviceHandler 1 "d1" dbFull).1 = .ok 200 ∧
    (deleteDeviceHandler 1 "d1" dbFull).2.devices = [] ∧
    (deleteDeviceHandler 1 "d1" dbFull).2.commands = [cmd1] ∧
    (deleteDeviceHandler 1 "d1" dbFull).2.locations = [loc1] ∧
    (deleteDeviceHandler 1 "d1" dbFull).2.logs = [log1] := by
  decide

/-- C1 counterexample: authenticated user 2 asking for device d1 owned by
user 1 receives 403 Access denied from the device-detail route, which is
distinguishable from the 404 Device not found returned for a nonexistent
device; moreover the pending-command poll returns the pending commands of d1
to user 2 with no ownership check at all. -/
theorem ownership_isolation_cex :
    getDeviceHandler 2 "d1" db1 = .e 403 "Access denied" ∧
    getDeviceHandler 2 "ghost" db1 = .e 404 "Device not found" ∧
    (pendingHandler 2 "d1" db1).1 = .okPending [cmd1] := by
  refine ⟨by decide, by decide, ?_⟩
  have h1 : db1.commands.filter (fun c => c.device_id == "d1" && c.status == "pending") =
      [cmd1] := by decide
  show Resp.okPending (getPendingCommands db1 "d1") = Resp.okPending [cmd1]
  unfold getPendingCommands
  rw [h1, List.mergeSort_singleton]

/-- C2 counterexample: the batch route creates a FACTORY_RESET command for an
owned device from a payload carrying no confirmation token at all, and
reports success. -/
theorem wipe_guard_cex :
    ((batchHandler 5 1 (some ["d1"]) (some "FACTORY_RESET") none db0).2.commands.filter
        (fun c => c.command_type == "FACTORY_RESET")).length = 1 ∧
    (batchHandler 5 1 (some ["d1"]) (some "FACTORY_RESET") none db0).1 =
      .okBatch [{ deviceId := "d1", success := true, commandId := some 1, error := none }] := by
  decide

/-- C3 counterexample: resolving command 1 to completed and then to the
string banana is accepted (200) and leaves the command with status banana —
the command leaves the terminal status and ends outside the set
pending/completed/failed. -/
theorem command_status_cex :
    ((commandResponseHandler 20 1 "d1" (some 1) (some "completed") none none db1).2.commands.map
        CommandRow.status = ["completed"]) ∧
    ((commandResponseHandler 30 1 "d1" (some 1) (some "banana") none none
        (commandResponseHandler 20 1 "d1" (some 1) (some "completed") none none db1).2).2.commands.map
        CommandRow.status = ["banana"]) ∧
    (commandResponseHandler 30 1 "d1" (some 1) (some "banana") none none
        (commandResponseHandler 20 1 "d1" (some 1) (some "completed") none none db1).2).1 =
      .ok 200 := by
  decide

/-- C5 counterexample: a perfectly valid sample at latitude 0 (the equator)
is rejected with 400 because the JavaScript truthiness test treats 0 as
missing, while the out-of-range pair latitude 91, longitude 200 is accepted
and persisted unchanged — so the rejection condition is not latitude or
longitude missing, non-numeric or out of range. -/
theorem location_validation_cex :
    locationUpdateHandler 7 1 "d1" (.num 0) (.num 10) .undef .undef .undef .undef .undef
        none none none db0 = (.e 400 "Latitude and longitude are required", db0) ∧
    (locationUpdateHandler 7 1 "d1" (.num 91) (.num 200) .undef .undef .undef .undef .undef
        none none none db0).1 = .okLocation 1 ∧
    (locationUpdateHandler 7 1 "d1" (.num 91) (.num 200) .undef .undef .undef .undef .undef
        none none none db0).2.locations.map (fun l => (l.latitude, l.longitude)) =
      [(91, 200)] := by
  decide

/-- C6 (amended): the two presence computations agree away from the
boundary — online at 4 min 59 s, offline at 5 min 01 s — but at exactly five
minutes the devices-route helper (inclusive bound) says online while the
dashboard computation (strict bound) says offline. -/
theorem presence_window_amended :
    ∀ (lastSeen now : Int),
    (isDeviceOnline lastSeen now = true ↔ now - lastSeen ≤ 300000) ∧
    (dashboardIsOnline lastSeen now = true ↔ now - lastSeen < 300000) ∧
    isDeviceOnline (now - 299000) now = true ∧
    dashboardIsOnline (now - 299000) now = true ∧
    isDeviceOnline (now - 301000) now = false ∧
    dashboardIsOnline (now - 301000) now = false ∧
    isDeviceOnline (now - 300000) now = true ∧
    dashboardIsOnline (now - 300000) now = false := by
  intro lastSeen now
  refine ⟨isDeviceOnline_iff lastSeen now, dashboardIsOnline_iff lastSeen now,
    ?_, ?_, ?_, ?_, ?_, ?_⟩
  · rw [isDeviceOnline_iff]; omega
  · rw [dashboardIsOnline_iff]; omega
  · rw [Bool.eq_false_iff, Ne, isDeviceOnline_iff]; omega
  · rw [Bool.eq_false_iff, Ne, dashboardIsOnline_iff]; omega
  · rw [isDeviceOnline_iff]; omega
  · rw [Bool.eq_false_iff, Ne, dashboardIsOnline_iff]; omega

/-- C6 witness: the amended presence statement evaluated at a concrete
clock — 4 min 59 s ago is online on both paths. -/
theorem presence_window_amended_witness :
    isDeviceOnline (999000 - 299000) 999000 = true ∧
    dashboardIsOnline (999000 - 299000) 999000 = true :=
  ⟨(presence_window_amended 0 999000).2.2.1, (presence_window_amended 0 999000).2.2.2.1⟩

/-- UPDATE devices SET status, last_seen WHERE device_id = ? stamps last_seen
with the write time on every matching row. -/
theorem updateDeviceStatus_last_seen (db : DB) (did s : String) (now : Int) :
    ∀ d ∈ (updateDeviceStatus db did s now).devices, d.device_id = did → d.last_seen = now := by
  intro d hd hdid
  unfold updateDeviceStatus at hd
  simp only [List.mem_map] at hd
  obtain ⟨c, hc, rfl⟩ := hd
  by_cases h : c.device_id == did
  · simp [h]
  · simp [h] at hdid ⊢
    exact absurd hdid (by simpa using h)

/-- UPDATE devices SET is_locked, last_seen WHERE device_id = ? stamps
last_seen with the write time on every matching row. -/
theorem updateDeviceLockStatus_last_seen (db : DB) (did : String) (b : Bool) (now : Int) :
    ∀ d ∈ (updateDeviceLockStatus db did b now).devices, d.device_id = did →
      d.last_seen = now ∧ d.is_locked = (if b then 1 else 0) := by
  intro d hd hdid
  unfold updateDeviceLockStatus at hd
  simp only [List.mem_map] at hd
  obtain ⟨c, hc, rfl⟩ := hd
  by_cases h : c.device_id == did
  · simp [h]
  · simp [h] at hdid ⊢
    exact absurd hdid (by simpa using h)

/-- UPDATE devices SET alarm_active, last_seen WHERE device_id = ? stamps
last_seen with the write time on every matching row. -/
theorem updateDeviceAlarmStatus_last_seen (db : DB) (did : String) (b : Bool) (now : Int) :
    ∀ d ∈ (updateDeviceAlarmStatus db did b now).devices, d.device_id = did → d.last_seen = now := by
  intro d hd hdid
  unfold updateDeviceAlarmStatus at hd
  simp only [List.mem_map] at hd
  obtain ⟨c, hc, rfl⟩ := hd
  by_cases h : c.device_id == did
  · simp [h]
  · simp [h] at hdid ⊢
    exact absurd hdid (by simpa using h)

/-- C10: the server-side flag writes refresh last_seen — updateDeviceStatus,
updateDeviceLockStatus and updateDeviceAlarmStatus all stamp last_seen with
the write time — so a lock command issued by the owner against an arbitrarily
stale device leaves every matching device row with last_seen = now, making
isDeviceOnline report true for any read within the following five minutes,
with no device-originated traffic. -/
theorem flag_writes_refresh_last_seen :
    ∀ (db : DB) (now : Int) (uid : Nat) (did : String) (msg : Option String) (dev : DeviceRow),
    getDeviceById db did = some dev → dev.user_id = uid →
    ((lockHandler now uid did msg db).1 = .okCommandId 201 db.nextCommandId ∧
     ∀ d ∈ (lockHandler now uid did msg db).2.devices, d.device_id = did →
       d.last_seen = now ∧ d.is_locked = 1 ∧
       ∀ t : Int, t - now ≤ 300000 → isDeviceOnline d.last_seen t = true) ∧
    (∀ (db2 : DB) (s : String) (n2 : Int),
       ∀ d ∈ (updateDeviceStatus db2 did s n2).devices, d.device_id = did → d.last_seen = n2) ∧
    (∀ (db2 : DB) (b : Bool) (n2 : Int),
       ∀ d ∈ (updateDeviceLockStatus db2 did b n2).devices, d.device_id = did → d.last_seen = n2) ∧
    (∀ (db2 : DB) (b : Bool) (n2 : Int),
       ∀ d ∈ (updateDeviceAlarmStatus db2 did b n2).devices, d.device_id = did → d.last_seen = n2) := by
  intro db now uid did msg dev hdev hown
  have hbeq : (dev.user_id != uid) = false := by simp [hown]
  have hlock : lockHandler now uid did msg db =
      (.okCommandId 201 db.nextCommandId,
        logDeviceActivity
          (updateDeviceLockStatus
            (createCommand db did uid "LOCK_DEVICE"
              (some (msg.getD "Device locked remotely for security")) now).2 did true now)
          did "command_sent" "Lock command sent" now) := by
    simp [lockHandler, hdev, hbeq, createCommand]
  refine ⟨⟨by rw [hlock], ?_⟩,
    fun db2 s n2 => updateDeviceStatus_last_seen db2 did s n2,
    fun db2 b n2 => fun d hd hdid => (updateDeviceLockStatus_last_seen db2 did b n2 d hd hdid).1,
    fun db2 b n2 => updateDeviceAlarmStatus_last_seen db2 did b n2⟩
  intro d hd hdid
  rw [hlock] at hd
  have hd2 : d ∈ (updateDeviceLockStatus
      (createCommand db did uid "LOCK_DEVICE"
        (some (msg.getD "Device locked remotely for security")) now).2 did true now).devices := hd
  have hmain := updateDeviceLockStatus_last_seen _ did true now d hd2 hdid
  refine ⟨hmain.1, by simpa using hmain.2, ?_⟩
  intro t ht
  rw [hmain.1, isDeviceOnline_iff]
  omega

/-- The device row dev1 after the optimistic lock write at time 42. -/
def dev1Locked : DeviceRow := { dev1 with last_seen := 42, is_locked := 1 }

/-- C10 witness: user 1 locks its stale device d1 at time 42; the response
is 201 with the new command id, the stored d1 row carries last_seen = 42 and
is_locked = 1, and a presence read five minutes later still reports online. -/
theorem flag_writes_refresh_last_seen_witness :
    (lockHandler 42 1 "d1" none db0).1 = .okCommandId 201 1 ∧
    dev1Locked ∈ (lockHandler 42 1 "d1" none db0).2.devices ∧
    dev1Locked.last_seen = 42 ∧ dev1Locked.is_locked = 1 ∧
    isDeviceOnline dev1Locked.last_seen 300042 = true :=
  have hall := (flag_writes_refresh_last_seen db0 42 1 "d1" none dev1 rfl rfl).1
  have hmem : dev1Locked ∈ (lockHandler 42 1 "d1" none db0).2.devices := by decide
  have hd := hall.2 dev1Locked hmem (by decide)
  ⟨hall.1, hmem, hd.1, hd.2.1, hd.2.2 300042 (by decide)⟩

/-- C1 (amended): for a deviceId that is missing or owned by another user,
the heartbeat, logs, delete, lock, alarm-start, wipe (with a valid token) and
location-update routes all answer the identical 404 Device not found without
touching the store; but the device-detail route distinguishes the two cases
(404 when missing, 403 Access denied when existing but not owned), the
pending-command poll returns the pending commands with no ownership check,
and the command-response route accepts and processes the call with no
ownership check. -/
theorem ownership_checks_amended :
    ∀ (db : DB) (now : Int) (uid : Nat) (did : String) (st msg : Option String),
    (∀ dev, getDeviceById db did = some dev → dev.user_id ≠ uid) →
    heartbeatHandler now uid did st db = (.e 404 "Device not found", db) ∧
    logsHandler uid did db = .e 404 "Device not found" ∧
    deleteDeviceHandler uid did db = (.e 404 "Device not found", db) ∧
    lockHandler now uid did msg db = (.e 404 "Device not found", db) ∧
    alarmStartHandler now uid did db = (.e 404 "Device not found", db) ∧
    wipeHandler now uid did (some "CONFIRM_FACTORY_RESET") db = (.e 404 "Device not found", db) ∧
    locationUpdateHandler now uid did (.num 1) (.num 1) .undef .undef .undef .undef .undef
      none none none db = (.e 404 "Device not found", db) ∧
    (getDeviceById db did = none → getDeviceHandler uid did db = .e 404 "Device not found") ∧
    (∀ dev, getDeviceById db did = some dev → getDeviceHandler uid did db = .e 403 "Access denied") ∧
    (pendingHandler uid did db).1 = .okPending (getPendingCommands db did) ∧
    (∀ (cid : Nat) (s : String), cid ≠ 0 → s ≠ "" →
      (commandResponseHandler now uid did (some cid) (some s) none none db).1 = .ok 200) := by
  intro db now uid did st msg h
  have htr : JSNum.truthy (.num 1) = true := by
    simp [JSNum.truthy]
  cases hd : getDeviceById db did with
  | none =>
    refine ⟨?_, ?_, ?_, ?_, ?_, ?_, ?_, fun _ => ?_, ?_, rfl, ?_⟩
    · simp [heartbeatHandler, hd]
    · simp [logsHandler, hd]
    · simp [deleteDeviceHandler, hd]
    · simp [lockHandler, hd]
    · simp [alarmStartHandler, hd]
    · simp [wipeHandler, hd]
    · simp [locationUpdateHandler, htr, hd]
    · simp [getDeviceHandler, hd]
    · intro dev hdev; exact absurd hdev (by simp)
    · intro cid s hcid hs
      simp [commandResponseHandler, natTruthy, strTruthy, hcid, hs]
  | some dev =>
    have hne : dev.user_id ≠ uid := h dev hd
    have hbeq : (dev.user_id != uid) = true := by simpa using hne
    refine ⟨?_, ?_, ?_, ?_, ?_, ?_, ?_, fun hcon => ?_, ?_, rfl, ?_⟩
    · simp [heartbeatHandler, hd, hbeq]
    · simp [logsHandler, hd, hbeq]
    · simp [deleteDeviceHandler, hd, hbeq]
    · simp [lockHandler, hd, hbeq]
    · simp [alarmStartHandler, hd, hbeq]
    · simp [wipeHandler, hd, hbeq]
    · simp [locationUpdateHandler, htr, hd, hbeq]
    · exact absurd hcon (by simp)
    · intro dev2 hdev2
      simp [getDeviceHandler, hd, hbeq]
    · intro cid s hcid hs
      simp [commandResponseHandler, natTruthy, strTruthy, hcid, hs]

/-- C1 witness: with user 2 attacking device d1 owned by user 1 (store db1,
which holds one pending command of d1), the checked routes answer 404 and
the pending poll leaks the command list. -/
theorem ownership_checks_amended_witness :
    heartbeatHandler 99 2 "d1" none db1 = (.e 404 "Device not found", db1) ∧
    (pendingHandler 2 "d1" db1).1 = .okPending (getPendingCommands db1 "d1") ∧
    (commandResponseHandler 99 2 "d1" (some 1) (some "completed") none none db1).1 = .ok 200 := by
  have h : ∀ dev, getDeviceById db1 "d1" = some dev → dev.user_id ≠ 2 := by
    intro dev hdev
    have : some dev1 = some dev := by rw [show getDeviceById db1 "d1" = some dev1 from rfl] at hdev; exact hdev ▸ rfl
    cases this
    decide
  have hall := ownership_checks_amended db1 99 2 "d1" none none h
  exact ⟨hall.1, hall.2.2.2.2.2.2.2.2.2.1,
    hall.2.2.2.2.2.2.2.2.2.2 1 "completed" (by decide) (by decide)⟩

/-- C2 (amended): the dedicated wipe route rejects any request whose
confirmWipe is not exactly the sentinel with 400 before touching the store,
so that path never creates a Command; but the batch route applies no
confirmation check to any commandType, and creates a FACTORY_RESET command
for an owned device from a payload with no token at all. -/
theorem wipe_guard_amended :
    ∀ (db : DB) (now : Int) (uid : Nat) (did : String) (confirm : Option String),
    confirm ≠ some "CONFIRM_FACTORY_RESET" →
    wipeHandler now uid did confirm db =
      (.e 400 "Wipe confirmation required. Set confirmWipe to CONFIRM_FACTORY_RESET", db) ∧
    (batchHandler now 1 (some ["d1"]) (some "FACTORY_RESET") none db0).2.commands.map
      CommandRow.command_type = ["FACTORY_RESET"] := by
  intro db now uid did confirm h
  constructor
  · simp [wipeHandler, h]
  · rfl

/-- C2 witness: user 2 posting to the wipe route with no token gets the 400
and an unchanged store. -/
theorem wipe_guard_amended_witness :
    wipeHandler 77 2 "d1" none db1 =
      (.e 400 "Wipe confirmation required. Set confirmWipe to CONFIRM_FACTORY_RESET", db1) :=
  (wipe_guard_amended db1 77 2 "d1" none (by simp)).1

/-- UPDATE commands SET status, response, executed_at WHERE id = ? overwrites
the three columns on the matching row whatever its previous status was. -/
theorem updateCommandStatus_mem (db : DB) (cid : Nat) (s : String) (r : Option String) (now : Int) :
    ∀ c ∈ (updateCommandStatus db cid s r now).commands, c.id = cid →
      c.status = s ∧ c.response = r ∧ c.executed_at = some now := by
  intro c hc hcid
  unfold updateCommandStatus at hc
  simp only [List.mem_map] at hc
  obtain ⟨c0, hc0, rfl⟩ := hc
  by_cases h : c0.id == cid
  · simp [h]
  · simp [h] at hcid ⊢
    exact absurd hcid (by simpa using h)

/-- The command-response route with truthy commandId and status reduces to
updateCommandStatus followed by a log append; the commands table afterwards
is exactly the updateCommandStatus image. -/
theorem commandResponseHandler_commands (now : Int) (uid : Nat) (did : String)
    (cid : Nat) (s : String) (rsp errMsg : Option String) (db : DB)
    (hcid : cid ≠ 0) (hs : s ≠ "") :
    (commandResponseHandler now uid did (some cid) (some s) rsp errMsg db).2.commands =
      (updateCommandStatus db cid s
        (if strTruthy rsp then rsp else if strTruthy errMsg then errMsg else none) now).commands := by
  simp [commandResponseHandler, natTruthy, strTruthy, hcid, hs, logDeviceActivity]

/-- C3 (amended): command status transitions are not enforced — the
command-response route overwrites the stored status with whatever truthy
string the caller supplies, so a second resolve moves a command out of a
terminal status and can set a status outside pending, completed, failed. -/
theorem command_status_overwrite :
    ∀ (db : DB) (now1 now2 : Int) (uid : Nat) (did : String) (cid : Nat)
      (s1 s2 : String) (r1 r2 : Option String),
    cid ≠ 0 → s1 ≠ "" → s2 ≠ "" →
    ∀ c ∈ (commandResponseHandler now2 uid did (some cid) (some s2) r2 none
        (commandResponseHandler now1 uid did (some cid) (some s1) r1 none db).2).2.commands,
      c.id = cid → c.status = s2 ∧ c.executed_at = some now2 := by
  intro db now1 now2 uid did cid s1 s2 r1 r2 hcid hs1 hs2 c hc hid
  rw [commandResponseHandler_commands now2 uid did cid s2 r2 none _ hcid hs2] at hc
  have := updateCommandStatus_mem _ cid s2 _ now2 c hc hid
  exact ⟨this.1, this.2.2⟩

/-- The command row cmd1 after being resolved to completed and then to
banana. -/
def cmdBanana : CommandRow :=
  { id := 1, device_id := "d1", user_id := 1, command_type := "LOCK_DEVICE",
    command_data := none, status := "banana", sent_at := 10,
    executed_at := some 30, response := none }

/-- C3 witness: resolving command 1 of db1 to completed and then to banana
leaves the stored row with status banana and the executed_at of the second
call. -/
theorem command_status_overwrite_witness :
    cmdBanana ∈ (commandResponseHandler 30 1 "d1" (some 1) (some "banana") none none
        (commandResponseHandler 20 1 "d1" (some 1) (some "completed") none none db1).2).2.commands ∧
    cmdBanana.status = "banana" ∧ cmdBanana.executed_at = some 30 :=
  ⟨by decide,
   (command_status_overwrite db1 20 30 1 "d1" 1 "completed" "banana" none none
      (by decide) (by decide) (by decide) cmdBanana (by decide) (by decide)).1,
   (command_status_overwrite db1 20 30 1 "d1" 1 "completed" "banana" none none
      (by decide) (by decide) (by decide) cmdBanana (by decide) (by decide)).2⟩

/-- C8: resolving a command twice with different statuses is accepted both
times (200, no error) and the stored row afterwards carries the status and
response of the last call — last write wins. -/
theorem resolve_last_write_wins :
    ∀ (db : DB) (now1 now2 : Int) (uid : Nat) (did : String) (cid : Nat)
      (s1 s2 rsp1 rsp2 : String),
    cid ≠ 0 → s1 ≠ "" → s2 ≠ "" → s1 ≠ s2 → rsp2 ≠ "" →
    (commandResponseHandler now1 uid did (some cid) (some s1) (some rsp1) none db).1 = .ok 200 ∧
    (commandResponseHandler now2 uid did (some cid) (some s2) (some rsp2) none
      (commandResponseHandler now1 uid did (some cid) (some s1) (some rsp1) none db).2).1 =
      .ok 200 ∧
    ∀ c ∈ (commandResponseHandler now2 uid did (some cid) (some s2) (some rsp2) none
        (commandResponseHandler now1 uid did (some cid) (some s1) (some rsp1) none db).2).2.commands,
      c.id = cid → c.status = s2 ∧ c.response = some rsp2 := by
  intro db now1 now2 uid did cid s1 s2 rsp1 rsp2 hcid hs1 hs2 hne hr2
  refine ⟨?_, ?_, ?_⟩
  · simp [commandResponseHandler, natTruthy, strTruthy, hcid, hs1]
  · simp [commandResponseHandler, natTruthy, strTruthy, hcid, hs2]
  · intro c hc hid
    rw [commandResponseHandler_commands now2 uid did cid s2 (some rsp2) none _ hcid hs2] at hc
    have := updateCommandStatus_mem _ cid s2 _ now2 c hc hid
    refine ⟨this.1, ?_⟩
    rw [this.2.1]
    simp [strTruthy, hr2]

/-- The command row cmd1 after being resolved to completed with ok-1 and
then to failed with ok-2. -/
def cmdFailed : CommandRow :=
  { id := 1, device_id := "d1", user_id := 1, command_type := "LOCK_DEVICE",
    command_data := none, status := "failed", sent_at := 10,
    executed_at := some 30, response := some "ok-2" }

/-- C8 witness: resolving command 1 of db1 to completed with response ok-1
and then to failed with response ok-2 answers 200 twice and leaves the
stored row with status failed and response ok-2. -/
theorem resolve_last_write_wins_witness :
    (commandResponseHandler 20 1 "d1" (some 1) (some "completed") (some "ok-1") none db1).1 =
      .ok 200 ∧
    (commandResponseHandler 30 1 "d1" (some 1) (some "failed") (some "ok-2") none
      (commandResponseHandler 20 1 "d1" (some 1) (some "completed") (some "ok-1") none db1).2).1 =
      .ok 200 ∧
    cmdFailed ∈ (commandResponseHandler 30 1 "d1" (some 1) (some "failed") (some "ok-2") none
        (commandResponseHandler 20 1 "d1" (some 1) (some "completed") (some "ok-1") none db1).2).2.commands ∧
    cmdFailed.status = "failed" ∧ cmdFailed.response = some "ok-2" :=
  have hall := resolve_last_write_wins db1 20 30 1 "d1" 1 "completed" "failed" "ok-1" "ok-2"
    (by decide) (by decide) (by decide) (by decide) (by decide)
  have hmem : cmdFailed ∈ (commandResponseHandler 30 1 "d1" (some 1) (some "failed")
      (some "ok-2") none (commandResponseHandler 20 1 "d1" (some 1) (some "completed")
        (some "ok-1") none db1).2).2.commands := by decide
  ⟨hall.1, hall.2.1, hmem, (hall.2.2 cmdFailed hmem (by decide)).1,
   (hall.2.2 cmdFailed hmem (by decide)).2⟩

/-- The register route with truthy deviceId and deviceName: the devices
table afterwards is the old table minus any row with that deviceId, plus the
freshly inserted row (INSERT OR REPLACE). -/
theorem registerHandler_devices (now : Int) (uid : Nat) (did n : String)
    (m a : Option String) (db : DB) (hdid : did ≠ "") (hn : n ≠ "") :
    (registerHandler now uid (some did) (some n) m a db).1 = .ok 201 ∧
    (registerHandler now uid (some did) (some n) m a db).2.devices =
      db.devices.filter (fun d => d.device_id != did) ++
        [{ user_id := uid, device_id := did, device_name := n,
           device_model := strOr m "Unknown", android_version := strOr a "Unknown",
           last_seen := now, status := "active", is_locked := 0, alarm_active := 0,
           battery_level := none }] := by
  constructor <;>
    simp [registerHandler, strTruthy, hdid, hn, registerDevice, logDeviceActivity]

/-- Filtering an upserted devices table for the upserted deviceId returns
exactly the fresh row: the replaced rows are gone. -/
theorem upsert_filter (l : List DeviceRow) (did : String) (r : DeviceRow)
    (hr : r.device_id = did) :
    (l.filter (fun d => d.device_id != did) ++ [r]).filter
      (fun d => d.device_id == did) = [r] := by
  rw [List.filter_append]
  have h1 : (l.filter (fun d => d.device_id != did)).filter
      (fun d => d.device_id == did) = [] := by
    rw [List.filter_filter]
    apply List.filter_eq_nil_iff.mpr
    intro d _
    simp only [Bool.and_eq_true, bne_iff_ne, ne_eq, beq_iff_eq]
    tauto
  rw [h1]
  simp [hr]

/-- C9: registering the same deviceId twice is an upsert — afterwards the
devices table holds exactly one row for that deviceId and it carries the
owner, name, metadata defaults and refreshed last_seen of the second call. -/
theorem register_upsert_idempotent :
    ∀ (db : DB) (now1 now2 : Int) (uid1 uid2 : Nat) (did n1 n2 : String)
      (m1 m2 a1 a2 : Option String),
    did ≠ "" → n1 ≠ "" → n2 ≠ "" →
    (registerHandler now1 uid1 (some did) (some n1) m1 a1 db).1 = .ok 201 ∧
    (registerHandler now2 uid2 (some did) (some n2) m2 a2
        (registerHandler now1 uid1 (some did) (some n1) m1 a1 db).2).1 = .ok 201 ∧
    (registerHandler now2 uid2 (some did) (some n2) m2 a2
        (registerHandler now1 uid1 (some did) (some n1) m1 a1 db).2).2.devices.filter
      (fun d => d.device_id == did) =
      [{ user_id := uid2, device_id := did, device_name := n2,
         device_model := strOr m2 "Unknown", android_version := strOr a2 "Unknown",
         last_seen := now2, status := "active", is_locked := 0, alarm_active := 0,
         battery_level := none }] := by
  intro db now1 now2 uid1 uid2 did n1 n2 m1 m2 a1 a2 hdid hn1 hn2
  obtain ⟨hr1, _⟩ := registerHandler_devices now1 uid1 did n1 m1 a1 db hdid hn1
  obtain ⟨hr2, hd2⟩ := registerHandler_devices now2 uid2 did n2 m2 a2
    (registerHandler now1 uid1 (some did) (some n1) m1 a1 db).2 hdid hn2
  refine ⟨hr1, hr2, ?_⟩
  rw [hd2]
  exact upsert_filter _ did _ rfl

/-- C9 witness: registering d1 twice on db0 (first by user 1 as Pixel, then
by user 2 as Tab) leaves exactly one d1 row, owned by user 2, named Tab,
with last_seen = 9. -/
theorem register_upsert_idempotent_witness :
    (registerHandler 3 1 (some "d1") (some "Pixel") none none db0).1 = .ok 201 ∧
    (registerHandler 9 2 (some "d1") (some "Tab") none none
        (registerHandler 3 1 (some "d1") (some "Pixel") none none db0).2).1 = .ok 201 ∧
    (registerHandler 9 2 (some "d1") (some "Tab") none none
        (registerHandler 3 1 (some "d1") (some "Pixel") none none db0).2).2.devices.filter
      (fun d => d.device_id == "d1") =
      [{ user_id := 2, device_id := "d1", device_name := "Tab",
         device_model := strOr none "Unknown", android_version := strOr none "Unknown",
         last_seen := 9, status := "active", is_locked := 0, alarm_active := 0,
         battery_level := none }] :=
  register_upsert_idempotent db0 3 9 1 2 "d1" "Pixel" "Tab" none none none none
    (by decide) (by decide) (by decide)

/-- C5 (amended): the single-sample location update rejects with 400 exactly
when latitude or longitude is JavaScript-falsy (absent or the number 0),
leaving the store untouched; any other numeric pair on an owned device is
persisted as parsed, with no range validation.  On the batch path a falsy
pair yields a per-sample Missing coordinates failure entry (not an HTTP
400) and a truthy pair is persisted unchecked. -/
theorem location_validation_amended :
    ∀ (db : DB) (now : Int) (uid : Nat) (did : String)
      (lat lon acc alt brg spd bat : JSNum) (addr src nty : Option String),
    (¬(lat.truthy = true ∧ lon.truthy = true) →
      locationUpdateHandler now uid did lat lon acc alt brg spd bat addr src nty db =
        (.e 400 "Latitude and longitude are required", db)) ∧
    (∀ dev, lat.truthy = true → lon.truthy = true →
      getDeviceById db did = some dev → dev.user_id = uid →
      (locationUpdateHandler now uid did lat lon acc alt brg spd bat addr src nty db).1 =
        .okLocation db.nextLocationId ∧
      (locationUpdateHandler now uid did lat lon acc alt brg spd bat addr src nty db).2.locations.map
        (fun l => (l.latitude, l.longitude)) =
        db.locations.map (fun l => (l.latitude, l.longitude)) ++ [(lat.toRat, lon.toRat)]) ∧
    (∀ (l : LocBody), ¬(l.latitude.truthy = true ∧ l.longitude.truthy = true) →
      ∀ (acc0 : List LocResult) (dbx : DB),
        batchLocStep now did (acc0, dbx) l =
          (acc0 ++ [{ success := false, locationId := none,
                      error := some "Missing coordinates" }], dbx)) ∧
    (∀ (l : LocBody), l.latitude.truthy = true → l.longitude.truthy = true →
      ∀ (acc0 : List LocResult) (dbx : DB),
        (batchLocStep now did (acc0, dbx) l).1 =
          acc0 ++ [{ success := true, locationId := some dbx.nextLocationId, error := none }] ∧
        (batchLocStep now did (acc0, dbx) l).2.locations.map
          (fun r => (r.latitude, r.longitude)) =
          dbx.locations.map (fun r => (r.latitude, r.longitude)) ++
            [(l.latitude.toRat, l.longitude.toRat)]) := by
  intro db now uid did lat lon acc alt brg spd bat addr src nty
  refine ⟨?_, ?_, ?_, ?_⟩
  · intro h
    cases hlat : lat.truthy <;> cases hlon : lon.truthy <;>
      simp_all [locationUpdateHandler]
  · intro dev hlat hlon hdev hown
    have hbeq : (dev.user_id != uid) = false := by simp [hown]
    by_cases hb : bat.truthy = true
    · constructor <;>
        simp [locationUpdateHandler, hlat, hlon, hdev, hbeq, hb, saveLocation,
          updateDeviceLastSeen, updateDeviceBatteryLevel, logDeviceActivity]
    · have hb2 : bat.truthy = false := by simpa using hb
      constructor <;>
        simp [locationUpdateHandler, hlat, hlon, hdev, hbeq, hb2, saveLocation,
          updateDeviceLastSeen, updateDeviceBatteryLevel, logDeviceActivity]
  · intro l h acc0 dbx
    cases hlat : l.latitude.truthy <;> cases hlon : l.longitude.truthy <;>
      simp_all [batchLocStep]
  · intro l hlat hlon acc0 dbx
    constructor <;> simp [batchLocStep, hlat, hlon, saveLocation]

/-- C5 witness: on db0 the pair latitude 0, longitude 10 is rejected with
400, while the out-of-range pair latitude 91, longitude 200 is accepted and
appended as is. -/
theorem location_validation_amended_witness :
    locationUpdateHandler 7 1 "d1" (.num 0) (.num 10) .undef .undef .undef .undef .undef
      none none none db0 = (.e 400 "Latitude and longitude are required", db0) ∧
    (locationUpdateHandler 7 1 "d1" (.num 91) (.num 200) .undef .undef .undef .undef .undef
      none none none db0).1 = .okLocation db0.nextLocationId :=
  ⟨(location_validation_amended db0 7 1 "d1" (.num 0) (.num 10) .undef .undef .undef .undef
      .undef none none none).1 (by decide),
   ((location_validation_amended db0 7 1 "d1" (.num 91) (.num 200) .undef .undef .undef .undef
      .undef none none none).2.1 dev1 (by decide) (by decide) rfl rfl).1⟩

/-- The store invariant maintained by command creation: the commands table
is in creation order — ids strictly increasing and sent_at nondecreasing
along the list — and every stored id is below the AUTOINCREMENT counter. -/
def commandsWf (db : DB) : Prop :=
  db.commands.Pairwise (fun a b => a.id < b.id ∧ a.sent_at ≤ b.sent_at) ∧
  ∀ c ∈ db.commands, c.id < db.nextCommandId

/-- C7: under the creation-order invariant, getPendingCommands returns
exactly the pending commands of the device, in sent_at-ascending order that
coincides with strictly increasing creation ids (FIFO); the poll handler
performs no write; and createCommand assigns the next id, strictly above
every existing id, preserving the invariant when the clock does not run
backwards. -/
theorem listPending_fifo :
    ∀ (db : DB) (did : String), commandsWf db →
    getPendingCommands db did =
      db.commands.filter (fun c => c.device_id == did && c.status == "pending") ∧
    (∀ c ∈ getPendingCommands db did,
      c.device_id = did ∧ c.status = "pending" ∧ c ∈ db.commands) ∧
    (∀ c ∈ db.commands, c.device_id = did → c.status = "pending" →
      c ∈ getPendingCommands db did) ∧
    (getPendingCommands db did).Pairwise (fun a b => a.id < b.id ∧ a.sent_at ≤ b.sent_at) ∧
    (∀ (uid : Nat), (pendingHandler uid did db).2 = db) ∧
    (∀ (uid : Nat) (ty : String) (pl : Option String) (now : Int),
      (createCommand db did uid ty pl now).1 = db.nextCommandId ∧
      (∀ c ∈ db.commands, c.id < (createCommand db did uid ty pl now).1) ∧
      ((∀ c ∈ db.commands, c.sent_at ≤ now) →
        commandsWf (createCommand db did uid ty pl now).2)) := by
  intro db did h
  obtain ⟨hpw, hid⟩ := h
  have hpwf : (db.commands.filter
      (fun c => c.device_id == did && c.status == "pending")).Pairwise
      (fun a b => a.id < b.id ∧ a.sent_at ≤ b.sent_at) :=
    List.Pairwise.sublist (List.filter_sublist _) hpw
  have hsorted : (db.commands.filter
      (fun c => c.device_id == did && c.status == "pending")).Pairwise
      (fun a b => decide (a.sent_at ≤ b.sent_at) = true) :=
    hpwf.imp (fun hab => decide_eq_true hab.2)
  have heq : getPendingCommands db did =
      db.commands.filter (fun c => c.device_id == did && c.status == "pending") := by
    unfold getPendingCommands
    exact List.mergeSort_of_sorted hsorted
  refine ⟨heq, ?_, ?_, ?_, fun _ => rfl, ?_⟩
  · intro c hc
    rw [heq] at hc
    rw [List.mem_filter] at hc
    obtain ⟨hmem, hcond⟩ := hc
    rw [Bool.and_eq_true, beq_iff_eq, beq_iff_eq] at hcond
    exact ⟨hcond.1, hcond.2, hmem⟩
  · intro c hmem hdid hst
    rw [heq, List.mem_filter]
    exact ⟨hmem, by rw [Bool.and_eq_true, beq_iff_eq, beq_iff_eq]; exact ⟨hdid, hst⟩⟩
  · rw [heq]; exact hpwf
  · intro uid ty pl now
    refine ⟨rfl, fun c hc => hid c hc, ?_⟩
    intro hnow
    constructor
    · show (db.commands ++ [_]).Pairwise _
      rw [List.pairwise_append]
      refine ⟨hpw, List.pairwise_singleton _ _, ?_⟩
      intro a ha b hb
      rw [List.mem_singleton] at hb
      subst hb
      exact ⟨hid a ha, hnow a ha⟩
    · intro c hc
      show c.id < db.nextCommandId + 1
      have hc2 : c ∈ db.commands ++
          [{ id := db.nextCommandId, device_id := did, user_id := uid,
             command_type := ty, command_data := pl, status := "pending",
             sent_at := now, executed_at := none, response := none }] := hc
      rw [List.mem_append, List.mem_singleton] at hc2
      cases hc2 with
      | inl hold => exact Nat.lt_succ_of_lt (hid c hold)
      | inr hnew => subst hnew; exact Nat.lt_succ_self _

/-- A second pending command for d1, created after cmd1. -/
def cmd2 : CommandRow :=
  { id := 2, device_id := "d1", user_id := 1, command_type := "START_ALARM",
    command_data := none, status := "pending", sent_at := 20,
    executed_at := none, response := none }

/-- A store whose commands table holds cmd1 and cmd2 in creation order. -/
def db2w : DB :=
  { devices := [dev1], commands := [cmd1, cmd2], locations := [], logs := [],
    nextCommandId := 3, nextLocationId := 1, nextLogId := 1 }

/-- C7 witness: on the two-command store the pending query returns the
filter itself, in creation order, and creating a third command is assigned
id 3, above both existing ids. -/
theorem listPending_fifo_witness :
    getPendingCommands db2w "d1" =
      db2w.commands.filter (fun c => c.device_id == "d1" && c.status == "pending") ∧
    (getPendingCommands db2w "d1").Pairwise
      (fun a b => a.id < b.id ∧ a.sent_at ≤ b.sent_at) ∧
    (createCommand db2w "d1" 1 "LOCK_DEVICE" none 30).1 = 3 := by
  have hwf : commandsWf db2w := ⟨by decide, by decide⟩
  have hall := listPending_fifo db2w "d1" hwf
  exact ⟨hall.1, hall.2.2.2.1, (hall.2.2.2.2.2 1 "LOCK_DEVICE" none 30).1⟩

end AlphaSec
